import Mathlib

/-!
Verification of the output reconstruction and emission pipeline of
`src/boltz/data/write/writer.py` (`BoltzWriter`).

The Python code is shallowly embedded below.  Tensors become (nested)
lists, the numpy structured-array tables of a `Structure` become lists of
row structures carrying exactly the fields the writer touches, dictionary
shaped data becomes insertion-ordered association lists, filesystem writes
become an accumulated list of `FileOut` values, and raised Python
exceptions become an `Err` value that aborts the remaining work while the
files already written are kept.  The external text encoders `to_pdb` /
`to_mmcif` are modelled as injective constructors carrying their inputs,
and the external base-structure loader is a function parameter.
-/

namespace Boltz

/-- One 3-D coordinate row (the trailing `3` dimension of the tensors);
the writer never looks inside a row, it only moves rows around. -/
abbrev Coord := Int × Int × Int

/-- One row of the numpy structured atom table.  Only the fields the
writer reads or writes (`coords`, `is_present`) are modelled; the other
fields of the real dtype are untouched by the writer. -/
structure AtomRow where
  coords : Coord
  is_present : Bool
deriving DecidableEq

/-- One row of the residue table (`is_present` is the only field the
writer touches). -/
structure ResidueRow where
  is_present : Bool
deriving DecidableEq

/-- One row of the chain table (`asym_id` is the only field the writer
reads). -/
structure ChainRow where
  asym_id : Nat
deriving DecidableEq

/-- `boltz.data.types.Structure` as far as the writer uses it: atom,
residue and chain tables, the per-original-chain validity mask and the
interface records (which the pipeline only ever clears). -/
structure Structure where
  atoms : List AtomRow
  residues : List ResidueRow
  chains : List ChainRow
  mask : List Bool
  interfaces : List Unit
deriving DecidableEq

/-- One chain-info entry of a `Record` (`boltz.data.types`), with the two
fields the writer rewrites via `replace`. -/
structure ChainInfo where
  chain_id : Int
  valid : Bool
deriving DecidableEq

/-- Batch-carried record metadata: identifier and per-original-chain
chain-info entries. -/
structure Record where
  id : String
  chains : List ChainInfo
deriving DecidableEq

/-- Errors raised by the embedded code (Python exception kinds). -/
inductive Err where
  /-- numpy broadcast failure / torch boolean-mask size mismatch. -/
  | shapeMismatch : Err
  /-- Python `KeyError` with a string key. -/
  | keyError (k : String) : Err
  /-- Python `KeyError` with an integer key (chain-map / rank lookups). -/
  | keyErrorNat (k : Nat) : Err
  /-- Python `IndexError` (list/tensor position out of range). -/
  | indexError : Err
  /-- Python `ValueError` (invalid output format at construction). -/
  | valueError (msg : String) : Err
  /-- The record identifier has no base snapshot on disk. -/
  | missingBaseStructure (path : String) : Err
deriving DecidableEq

/-- The dictionary `prediction` of `write_on_batch_end`.  Scalar
confidence tensors live in the insertion-ordered field dictionary
`scalarFields` (they are looked up by name, and a missing name is a
`KeyError`); the optional tensors are `Option` fields standing for
dictionary membership. -/
structure Prediction where
  exception : Bool
  /-- `prediction["coords"]`: `[num_candidates][max_atoms]` coordinate rows. -/
  coords : List (List Coord)
  /-- `prediction["masks"]`: `[num_records][max_atoms]` booleans. -/
  masks : List (List Bool)
  /-- The scalar confidence tensors (`confidence_score`, `ptm`, ...),
  each `[num_candidates]`. -/
  scalarFields : List (String × List Int)
  /-- `prediction["plddt"]`: per-candidate per-atom confidence. -/
  plddt : Option (List (List Int))
  /-- `prediction["pae"]`: per-candidate pairwise error (opaque blob). -/
  pae : Option (List (List Int))
  /-- `prediction["pde"]`: per-candidate pairwise error (opaque blob). -/
  pde : Option (List (List Int))
  /-- `prediction["pair_chains_iptm"]`: chain idx → chain idx →
  per-candidate tensor, insertion-ordered at both levels. -/
  pair_chains_iptm : Option (List (Nat × List (Nat × List Int)))
  /-- `prediction["intermediate_coords"]`: `[step][num_candidates][max_atoms]`. -/
  intermediate_coords : Option (List (List (List Coord)))

/-- The writer's construction-time configuration and its failure counter. -/
structure Writer where
  data_dir : String
  output_dir : String
  output_format : String
  failed : Nat
deriving DecidableEq

/-- `BoltzWriter.__init__`: rejects any `output_format` outside
`["pdb", "mmcif"]` with a `ValueError`, otherwise stores the
configuration and zeroes the failure counter. -/
def boltzWriterInit (data_dir output_dir output_format : String) :
    Except Err Writer :=
  if output_format = "pdb" ∨ output_format = "mmcif" then
    .ok { data_dir := data_dir, output_dir := output_dir,
          output_format := output_format, failed := 0 }
  else
    .error (.valueError ("Invalid output format: " ++ output_format))

/-- Contents written to disk.  The external encoders `to_pdb` and
`to_mmcif` are modelled as constructors carrying exactly the arguments the
writer passes them; `np.savez_compressed` payloads carry the saved value. -/
inductive FileContent where
  | pdbText (s : Structure) : FileContent
  | mmcifText (s : Structure) (plddtRow : Option (List Int)) : FileContent
  | npzStructure (s : Structure) : FileContent
  | confidenceJson (scalars : List (String × Int))
      (chains_ptm : List (Nat × Int))
      (pair_chains_iptm : List (Nat × List (Nat × Int))) : FileContent
  | npzPlddt (v : List Int) : FileContent
  | npzPae (v : List Int) : FileContent
  | npzPde (v : List Int) : FileContent
deriving DecidableEq

/-- One file written by the pipeline. -/
structure FileOut where
  path : String
  content : FileContent
deriving DecidableEq

/-- Result of one `write_on_batch_end` call: the failure counter after the
call, the files written (in write order) and the exception that escaped,
if any. -/
structure WriteResult where
  failed : Nat
  files : List FileOut
  error : Option Err
deriving DecidableEq

/-- Python list indexing `xs[i]` (nonnegative index): `IndexError` when
out of range. -/
def listGet (xs : List α) (i : Nat) : Except Err α :=
  match xs.get? i with
  | some x => .ok x
  | none => .error .indexError

/-- First value bound to key `k` in an insertion-ordered dictionary,
if any. -/
def alookupO [BEq κ] (l : List (κ × β)) (k : κ) : Option β :=
  match l.find? (fun e => e.1 == k) with
  | some e => some e.2
  | none => none

/-- Dictionary subscript `d[k]` for string keys: `KeyError` when absent. -/
def lookupStr (l : List (String × β)) (k : String) : Except Err β :=
  match alookupO l k with
  | some v => .ok v
  | none => .error (.keyError k)

/-- Dictionary subscript `d[k]` for integer keys: `KeyError` when absent. -/
def lookupNat (l : List (Nat × β)) (k : Nat) : Except Err β :=
  match alookupO l k with
  | some v => .ok v
  | none => .error (.keyErrorNat k)

/-- torch boolean-mask row selection `t[mask.bool()]`: keeps the rows at
`true` positions, in order; a mask whose length differs from the leading
dimension raises (modelled as `shapeMismatch`, the spec's name for
rank/dimension disagreements). -/
def maskSelect (xs : List Coord) (m : List Bool) : Except Err (List Coord) :=
  if xs.length = m.length then
    .ok (((xs.zip m).filter (fun e => e.2)).map (fun e => e.1))
  else
    .error .shapeMismatch

/-- numpy field assignment `atoms["coords"] = cs` on a structured array of
`atoms.length` rows: elementwise when the row counts agree, silent
broadcast of a single row to every position when `cs` has exactly one row,
and a broadcast error (`shapeMismatch`) otherwise. -/
def assignCoords (atoms : List AtomRow) (cs : List Coord) :
    Except Err (List AtomRow) :=
  if cs.length = atoms.length then
    .ok ((atoms.zip cs).map (fun e => { e.1 with coords := e.2 }))
  else if h : cs.length = 1 then
    .ok (atoms.map (fun a => { a with coords := cs.head (by
      intro hnil; rw [hnil] at h; simp at h) }))
  else
    .error .shapeMismatch

/-- Exception-propagating traversal: the translation of a Python
comprehension that may raise on an element. -/
def exMapM (f : α → Except Err β) : List α → Except Err (List β)
  | [] => .ok []
  | a :: as =>
    match f a with
    | .error e => .error e
    | .ok b =>
      match exMapM f as with
      | .error e => .error e
      | .ok bs => .ok (b :: bs)

/-- `zip` over three lists, truncating at the shortest. -/
def zip3 : List α → List β → List γ → List (α × β × γ)
  | a :: as, b :: bs, c :: cs => (a, b, c) :: zip3 as bs cs
  | _, _, _ => []

/-- The loop
`for i, mask in enumerate(structure.mask): if mask: chain_map[len(chain_map)] = i`
with the running enumeration index made explicit.  The dictionary's keys
are the consecutive integers `0, 1, ...`, so it is represented as the list
of its values in key order. -/
def chainMapAux : List Bool → Nat → List Nat
  | [], _ => []
  | b :: rest, i =>
    if b then i :: chainMapAux rest (i + 1) else chainMapAux rest (i + 1)

/-- The chain map built by the writer (lines 84-88), mapping each
post-filter chain position to the original chain position. -/
def chainMap (mask : List Bool) : List Nat := chainMapAux mask 0

/-- Specification-side notion: the position of the `n`-th `true` entry of
a boolean list, if it exists. -/
def nthTruePos : List Bool → Nat → Option Nat
  | [], _ => none
  | b :: rest, n =>
    if b then
      match n with
      | 0 => some 0
      | n + 1 => (nthTruePos rest n).map (· + 1)
    else (nthTruePos rest n).map (· + 1)

/-- Modelled from the spec: `Structure.remove_invalid_chains`
(`boltz.data.types`, not under `src/`).  Per the spec it "produces a
filtered snapshot containing only valid chains", with surviving chains
renumbered so that a surviving chain's `asym_id` is its new position (the
writer looks the new `asym_id` up in the freshly built chain map, and the
spec calls that `asym_id` "remapped").  The transitive filtering of the
atom/residue tables is delegated to this external operation and is not
claim-relevant here, so those tables are carried over unchanged; the
concrete runs below use all-`True` masks, for which the delegated
filtering is the identity. -/
def remove_invalid_chains (s : Structure) : Structure :=
  let kept := ((s.chains.zip s.mask).filter (fun e => e.2)).map (fun e => e.1)
  let newChains := (List.range kept.length).map (fun j => ({ asym_id := j } : ChainRow))
  { s with chains := newChains, mask := List.replicate kept.length true }

/-- Insert an enumerated score into a descending-sorted list of
later-indexed scores, before any equal score (so the overall sort is
stable: earlier indices come first among ties). -/
def insertDesc (x : Nat × Int) : List (Nat × Int) → List (Nat × Int)
  | [] => [x]
  | y :: ys => if y.2 ≤ x.2 then x :: y :: ys else y :: insertDesc x ys

/-- Stable descending insertion sort on enumerated scores. -/
def isortDesc : List (Nat × Int) → List (Nat × Int)
  | [] => []
  | x :: xs => insertDesc x (isortDesc xs)

/-- `torch.argsort(confidence_score, descending=True)` (line 74).  The
source calls it without `stable=True`, so the library leaves the relative
order of equal scores unspecified; this embedding fixes one admissible
implementation, the stable one (ties by ascending candidate index). -/
def argsortDescending (scores : List Int) : List Nat :=
  (isortDesc scores.enum).map (fun e => e.1)

/-- Executable check that the scores are non-increasing along the index
list. -/
def descSortedB (scores : List Int) : List Nat → Bool
  | i :: j :: rest =>
    decide (scores.getD j 0 ≤ scores.getD i 0) && descSortedB scores (j :: rest)
  | _ => true

/-- The documented contract of `torch.argsort(·, descending=True)` with
the default `stable=False`: the result is a permutation of the index range
along which the scores are non-increasing — and nothing more. -/
def argsortDescSpec (scores : List Int) (p : List Nat) : Prop :=
  p.Perm (List.range scores.length) ∧ descSortedB scores p = true

/-- `idx_to_rank[model_idx]` where
`idx_to_rank = {idx.item(): rank for rank, idx in enumerate(argsort)}`
(line 75): the position of `mi` in the argsort output, `KeyError` when
absent. -/
def idxToRank (argsortL : List Nat) (mi : Nat) : Except Err Nat :=
  match argsortL.enum.find? (fun e => e.2 == mi) with
  | some e => .ok e.1
  | none => .error (.keyErrorNat mi)

/-- The chain-info recomputation (lines 151-160): for each surviving
chain, look its original position up in the chain map, fetch the original
chain-info entry and rewrite `chain_id`/`valid`.  The writer builds this
list and never uses it, but the lookups can still raise. -/
def computeChainInfo (chains : List ChainRow) (chain_map : List Nat)
    (recChains : List ChainInfo) : Except Err (List ChainInfo) :=
  exMapM (fun ch => do
    let old_chain_idx ← lookupNat chain_map.enum ch.asym_id
    let old ← listGet recChains old_chain_idx
    pure { old with chain_id := (ch.asym_id : Int), valid := true }) chains

/-- The nine scalar confidence keys of the summary loop (lines 196-206),
in source order. -/
def nineConfidenceKeys : List String :=
  ["confidence_score", "ptm", "iptm", "ligand_iptm", "protein_iptm",
   "complex_plddt", "complex_iplddt", "complex_pde", "complex_ipde"]

/-- `confidence_summary_dict[key] = prediction[key][model_idx].item()`
for one scalar key. -/
def getScalar (fields : List (String × List Int)) (mi : Nat) (k : String) :
    Except Err (String × Int) := do
  let t ← lookupStr fields k
  let v ← listGet t mi
  pure (k, v)

/-- One entry of the `chains_ptm` comprehension (lines 208-211):
`idx ↦ prediction["pair_chains_iptm"][idx][idx][model_idx].item()`. -/
def getDiag (pci : List (Nat × List (Nat × List Int))) (mi : Nat)
    (e : Nat × List (Nat × List Int)) : Except Err (Nat × Int) := do
  let row ← lookupNat pci e.1
  let t ← lookupNat row e.1
  let v ← listGet t mi
  pure (e.1, v)

/-- One entry of an inner `pair_chains_iptm` comprehension (lines 213-218):
`idx2 ↦ d[idx1][idx2][model_idx].item()`. -/
def getInnerEntry (row : List (Nat × List Int)) (mi : Nat)
    (e2 : Nat × List Int) : Except Err (Nat × Int) := do
  let t ← lookupNat row e2.1
  let v ← listGet t mi
  pure (e2.1, v)

/-- One outer entry of the `pair_chains_iptm` comprehension:
`idx1 ↦ {idx2: ... for idx2 in d[idx1]}`. -/
def getPairRow (pci : List (Nat × List (Nat × List Int))) (mi : Nat)
    (e : Nat × List (Nat × List Int)) :
    Except Err (Nat × List (Nat × Int)) := do
  let row ← lookupNat pci e.1
  let inner ← exMapM (getInnerEntry row mi) row
  pure (e.1, inner)

/-- The confidence summary dictionary of lines 195-220: the nine scalar
values, then `chains_ptm` (the diagonal of the pairwise tensor over the
batch's own outer keys), then the nested `pair_chains_iptm`, all in the
batch's insertion order.  Accessing `prediction["pair_chains_iptm"]` when
the batch lacks it is a `KeyError`, raised after the scalar loop. -/
def buildConfidenceSummary (fields : List (String × List Int))
    (pciO : Option (List (Nat × List (Nat × List Int)))) (mi : Nat) :
    Except Err (List (String × Int) × List (Nat × Int) ×
      List (Nat × List (Nat × Int))) := do
  let scalars ← exMapM (getScalar fields mi) nineConfidenceKeys
  match pciO with
  | none => .error (.keyError "pair_chains_iptm")
  | some pci => do
    let chains_ptm ← exMapM (getDiag pci mi) pci
    let pairs ← exMapM (getPairRow pci mi) pci
    pure (scalars, chains_ptm, pairs)

/-- The final-candidate structure assembly, lines 133-148.  The source
binds `atoms = structure.atoms` (no copy) and assigns into it, so the
assignment also rewrites the snapshot it was given; the first returned
component is that snapshot after the in-place writes, the second is the
`replace(...)` result (same tables, interfaces cleared). -/
def assembleFinal (st : Structure) (coord_unpad : List Coord) :
    Except Err (Structure × Structure) :=
  match assignCoords st.atoms coord_unpad with
  | .error e => .error e
  | .ok atoms0 =>
    let atoms := atoms0.map (fun a => { a with is_present := true })
    let residues := st.residues.map (fun r => { r with is_present := true })
    let base := { st with atoms := atoms, residues := residues }
    let newS := { base with interfaces := ([] : List Unit) }
    .ok (base, newS)

/-- The intermediate-step structure assembly, lines 106-115.  Here the
source copies the atom table (`structure.atoms.copy()`) before assigning,
so the given snapshot is left untouched and only the new snapshot is
produced. -/
def assembleIntermediate (st : Structure) (coord_unpad : List Coord) :
    Except Err Structure :=
  match assignCoords st.atoms coord_unpad with
  | .error e => .error e
  | .ok atoms0 =>
    let atoms := atoms0.map (fun a => { a with is_present := true })
    .ok { st with atoms := atoms, interfaces := ([] : List Unit) }

/-- Line 118: the intermediate-step file path.  The f-string uses the raw
`self.output_format` string as the suffix. -/
def intermediatePath (outDir rid : String) (rank step : Nat) (fmt : String) :
    String :=
  outDir ++ "/" ++ rid ++ "/intermediate/" ++ rid ++ "_model_" ++
    toString rank ++ "_step_" ++ toString step ++ "." ++ fmt

/-- Lines 166-187: the final structure file path, with suffix `pdb`,
`cif` or `npz` according to the format branch taken. -/
def finalStructPath (outDir rid : String) (rank : Nat) (fmt : String) :
    String :=
  outDir ++ "/" ++ rid ++ "/" ++ rid ++ "_model_" ++ toString rank ++
    (if fmt = "pdb" then ".pdb" else if fmt = "mmcif" then ".cif" else ".npz")

/-- Lines 191-194: the confidence summary path. -/
def confidencePath (outDir rid : String) (rank : Nat) : String :=
  outDir ++ "/" ++ rid ++ "/confidence_" ++ rid ++ "_model_" ++
    toString rank ++ ".json"

/-- Lines 231-234: the per-atom confidence side-channel path. -/
def plddtPath (outDir rid : String) (rank : Nat) : String :=
  outDir ++ "/" ++ rid ++ "/plddt_" ++ rid ++ "_model_" ++
    toString rank ++ ".npz"

/-- Lines 240-243: the pairwise error side-channel path. -/
def paePath (outDir rid : String) (rank : Nat) : String :=
  outDir ++ "/" ++ rid ++ "/pae_" ++ rid ++ "_model_" ++
    toString rank ++ ".npz"

/-- Lines 249-252: the pairwise distance-error side-channel path. -/
def pdePath (outDir rid : String) (rank : Nat) : String :=
  outDir ++ "/" ++ rid ++ "/pde_" ++ rid ++ "_model_" ++
    toString rank ++ ".npz"

/-- The effect of a code region: files written so far plus the exception
that escaped, if any. -/
abbrev W := List FileOut × Option Err

/-- No files, no exception. -/
def wOk : W := ([], none)

/-- Write one file. -/
def wEmit (f : FileOut) : W := ([f], none)

/-- Raise without having written anything. -/
def wFail (e : Err) : W := ([], some e)

/-- Sequence two regions: the second runs only when the first did not
raise; files accumulate in order. -/
def wSeq : W → (Unit → W) → W
  | (fs, none), k => let r := k (); (fs ++ r.1, r.2)
  | (fs, some e), _ => (fs, some e)

/-- Run a region for each element, stopping at the first exception. -/
def forW (xs : List α) (f : α → W) : W :=
  match xs with
  | [] => wOk
  | x :: rest => wSeq (f x) (fun _ => forW rest f)

/-- Turn an expression that may raise into a region. -/
def liftW (r : Except Err α) (k : α → W) : W :=
  match r with
  | .error e => wFail e
  | .ok a => k a

/-- The intermediate-structure block, lines 94-125: for each refinement
step, unpad that step's coordinates for the current candidate with the
record's mask, assemble a snapshot from a copied atom table and write it
under `<out>/<id>/intermediate/` at the rank-derived path, dispatching on
the format (no per-atom confidence is ever embedded here). -/
def intermediateBlock (fmt outDir : String) (p : Prediction)
    (ranking : List Nat) (rid : String) (pad_mask : List Bool)
    (st : Structure) (mi : Nat) : W :=
  match p.intermediate_coords with
  | none => wOk
  | some steps =>
    forW steps.enum (fun se =>
      liftW (listGet se.2 mi) (fun model_step_coords =>
      liftW (maskSelect model_step_coords pad_mask) (fun coord_unpad =>
      liftW (assembleIntermediate st coord_unpad) (fun new_structure =>
      liftW (idxToRank ranking mi) (fun rank =>
      let path := intermediatePath outDir rid rank se.1 fmt
      if fmt = "pdb" then wEmit ⟨path, .pdbText new_structure⟩
      else if fmt = "mmcif" then wEmit ⟨path, .mmcifText new_structure none⟩
      else wEmit ⟨path, .npzStructure new_structure⟩)))))

/-- The final-structure block for one candidate, lines 127-253: unpad,
assemble in place (the returned first component is the snapshot to carry
to the next candidate — the source mutated it), recompute the (unused)
chain infos, write the structure file, and then the confidence summary,
per-atom confidence, `pae` and `pde` side-channels when their fields are
present. -/
def finalBlock (fmt outDir : String) (p : Prediction) (ranking : List Nat)
    (chain_map : List Nat) (record : Record) (pad_mask : List Bool)
    (st : Structure) (mi : Nat) (mc : List Coord) : Structure × W :=
  match maskSelect mc pad_mask with
  | .error e => (st, wFail e)
  | .ok coord_unpad =>
    match assembleFinal st coord_unpad with
    | .error e => (st, wFail e)
    | .ok (st', new_structure) =>
      (st',
        wSeq (liftW (computeChainInfo new_structure.chains chain_map
            record.chains) (fun _ => wOk)) (fun _ =>
        wSeq (liftW (idxToRank ranking mi) (fun rank =>
          if fmt = "pdb" then
            wEmit ⟨finalStructPath outDir record.id rank fmt,
              .pdbText new_structure⟩
          else if fmt = "mmcif" then
            match p.plddt with
            | some pl =>
              liftW (listGet pl mi) (fun plv =>
                wEmit ⟨finalStructPath outDir record.id rank fmt,
                  .mmcifText new_structure (some plv)⟩)
            | none =>
              wEmit ⟨finalStructPath outDir record.id rank fmt,
                .mmcifText new_structure none⟩
          else
            wEmit ⟨finalStructPath outDir record.id rank fmt,
              .npzStructure new_structure⟩)) (fun _ =>
        wSeq (match p.plddt with
          | none => wOk
          | some pl =>
            liftW (buildConfidenceSummary p.scalarFields p.pair_chains_iptm
                mi) (fun s =>
            liftW (idxToRank ranking mi) (fun rank =>
            wSeq (wEmit ⟨confidencePath outDir record.id rank,
                .confidenceJson s.1 s.2.1 s.2.2⟩) (fun _ =>
            liftW (listGet pl mi) (fun plv =>
              wEmit ⟨plddtPath outDir record.id rank, .npzPlddt plv⟩)))))
          (fun _ =>
        wSeq (match p.pae with
          | none => wOk
          | some paes =>
            liftW (listGet paes mi) (fun v =>
            liftW (idxToRank ranking mi) (fun rank =>
              wEmit ⟨paePath outDir record.id rank, .npzPae v⟩)))
          (fun _ =>
        match p.pde with
        | none => wOk
        | some pdes =>
          liftW (listGet pdes mi) (fun v =>
          liftW (idxToRank ranking mi) (fun rank =>
            wEmit ⟨pdePath outDir record.id rank, .npzPde v⟩)))))))

/-- The candidate loop `for model_idx in range(coord.shape[0])` (line 92),
threading the snapshot that the final block rewrites in place. -/
def processModels (fmt outDir : String) (p : Prediction)
    (ranking : List Nat) (chain_map : List Nat) (record : Record)
    (pad_mask : List Bool) :
    Structure → List (Nat × List Coord) → W
  | _, [] => wOk
  | st, (mi, mc) :: rest =>
    match intermediateBlock fmt outDir p ranking record.id pad_mask st mi with
    | (fs, some e) => (fs, some e)
    | (fs, none) =>
      match finalBlock fmt outDir p ranking chain_map record pad_mask st mi mc with
      | (_, (fs2, some e)) => (fs ++ fs2, some e)
      | (st', (fs2, none)) =>
        let r := processModels fmt outDir p ranking chain_map record
          pad_mask st' rest
        (fs ++ fs2 ++ r.1, r.2)

/-- One iteration of the record loop, lines 78-9x: load the base snapshot
from `<data_dir>/<id>.npz`, build the chain map from the mask *before*
filtering, filter the invalid chains away, then run the candidate loop
over the enumerated candidate dimension of this record's coordinates. -/
def processRecord (fmt dataDir outDir : String)
    (load : String → Except Err Structure) (p : Prediction)
    (ranking : List Nat) (record : Record) (coordT : List (List Coord))
    (pad_mask : List Bool) : W :=
  match load (dataDir ++ "/" ++ record.id ++ ".npz") with
  | .error e => wFail e
  | .ok structure0 =>
    let chain_map := chainMap structure0.mask
    let structure1 := remove_invalid_chains structure0
    processModels fmt outDir p ranking chain_map record pad_mask
      structure1 coordT.enum

/-- Lines 65-78 of the non-exception path: read the records, wrap the
coordinate tensor in a singleton leading dimension
(`coords = coords.unsqueeze(0)`), look the batch's confidence scores up,
rank them once, and run the record loop over the three zipped sequences
(`zip` truncates at the shortest, here the singleton coords). -/
def processBatch (fmt dataDir outDir : String)
    (load : String → Except Err Structure) (p : Prediction)
    (records : List Record) : W :=
  let coords := [p.coords]
  let pad_masks := p.masks
  liftW (lookupStr p.scalarFields "confidence_score") (fun cs =>
    let ranking := argsortDescending cs
    forW (zip3 records coords pad_masks) (fun t =>
      processRecord fmt dataDir outDir load p ranking t.1 t.2.1 t.2.2))

/-- `BoltzWriter.write_on_batch_end` (lines 51-253): a batch whose
exception flag is set only bumps the failure counter; otherwise the body
runs with the counter untouched, and the files written before any escaped
exception are kept. -/
def write_on_batch_end (w : Writer) (load : String → Except Err Structure)
    (p : Prediction) (records : List Record) : WriteResult :=
  if p.exception then
    { failed := w.failed + 1, files := [], error := none }
  else
    let r := processBatch w.output_format w.data_dir w.output_dir load
      p records
    { failed := w.failed, files := r.1, error := r.2 }

/-! ### Concrete scenario inputs used by the instance theorems below -/

/-- A one-chain, one-atom, one-residue base snapshot with an all-valid
chain mask (so the externally delegated atom/residue filtering is the
identity). -/
def sampleStructure : Structure :=
  { atoms := [{ coords := (0, 0, 0), is_present := false }]
  , residues := [{ is_present := false }]
  , chains := [{ asym_id := 0 }]
  , mask := [true]
  , interfaces := [] }

/-- A loader environment holding `sampleStructure` for record ids
`a` and `b`. -/
def sampleLoad : String → Except Err Structure := fun path =>
  if path = "data/a.npz" ∨ path = "data/b.npz" then .ok sampleStructure
  else .error (.missingBaseStructure path)

/-- Record metadata for id `a`. -/
def recordA : Record := { id := "a", chains := [{ chain_id := 0, valid := false }] }

/-- Record metadata for id `b`. -/
def recordB : Record := { id := "b", chains := [{ chain_id := 0, valid := false }] }

/-- A minimal non-exception batch: one candidate, one atom, only the
always-read `confidence_score` field. -/
def basePrediction : Prediction :=
  { exception := false
  , coords := [[(1, 2, 3)]]
  , masks := [[true]]
  , scalarFields := [("confidence_score", [7])]
  , plddt := none, pae := none, pde := none
  , pair_chains_iptm := none, intermediate_coords := none }

/-- A writer constructed with the `pdb` format. -/
def sampleWriterPdb : Writer :=
  { data_dir := "data", output_dir := "out", output_format := "pdb", failed := 0 }

/-- A writer constructed with the `mmcif` format. -/
def sampleWriterMmcif : Writer :=
  { data_dir := "data", output_dir := "out", output_format := "mmcif", failed := 0 }

/-- All nine scalar confidence fields with distinct values. -/
def nineFields : List (String × List Int) :=
  [("confidence_score", [7]), ("ptm", [1]), ("iptm", [2]),
   ("ligand_iptm", [3]), ("protein_iptm", [4]), ("complex_plddt", [5]),
   ("complex_iplddt", [6]), ("complex_pde", [8]), ("complex_ipde", [9])]

/-- A two-chain pairwise confidence tensor with chains `{0, 1}` at both
levels. -/
def samplePci : List (Nat × List (Nat × List Int)) :=
  [(0, [(0, [10]), (1, [11])]), (1, [(0, [12]), (1, [13])])]

/-- The eight scalar confidence fields other than `confidence_score`. -/
def eightFieldsNoScore : List (String × List Int) :=
  [("ptm", [1]), ("iptm", [2]), ("ligand_iptm", [3]), ("protein_iptm", [4]),
   ("complex_plddt", [5]), ("complex_iplddt", [6]), ("complex_pde", [8]),
   ("complex_ipde", [9])]

/-- The scalar confidence fields with `ptm` missing. -/
def fieldsNoPtm : List (String × List Int) :=
  [("confidence_score", [7]), ("iptm", [2]), ("ligand_iptm", [3]),
   ("protein_iptm", [4]), ("complex_plddt", [5]), ("complex_iplddt", [6]),
   ("complex_pde", [8]), ("complex_ipde", [9])]

/-- Two candidates (scores 2 and 9, so candidate 1 ranks best) with one
intermediate refinement step. -/
def c8Prediction : Prediction :=
  { basePrediction with
      coords := [[(1, 1, 1)], [(2, 2, 2)]]
    , scalarFields := [("confidence_score", [2, 9])]
    , intermediate_coords := some [[[(5, 5, 5)], [(6, 6, 6)]]] }

/-- `sampleStructure` after one final assembly with coordinates
`(1, 2, 3)`: coordinates substituted, every presence flag forced true. -/
def c1Snap1 : Structure :=
  { atoms := [{ coords := (1, 2, 3), is_present := true }]
  , residues := [{ is_present := true }]
  , chains := [{ asym_id := 0 }]
  , mask := [true]
  , interfaces := [] }

/-- The same snapshot after a second final assembly with coordinates
`(4, 5, 6)`. -/
def c1Snap2 : Structure :=
  { atoms := [{ coords := (4, 5, 6), is_present := true }]
  , residues := [{ is_present := true }]
  , chains := [{ asym_id := 0 }]
  , mask := [true]
  , interfaces := [] }

instance {ε α : Type _} [DecidableEq ε] [DecidableEq α] :
    DecidableEq (Except ε α)
  | .ok a, .ok b =>
    if h : a = b then .isTrue (by rw [h])
    else .isFalse (fun hh => by cases hh; exact h rfl)
  | .error a, .error b =>
    if h : a = b then .isTrue (by rw [h])
    else .isFalse (fun hh => by cases hh; exact h rfl)
  | .ok _, .error _ => .isFalse (fun hh => by cases hh)
  | .error _, .ok _ => .isFalse (fun hh => by cases hh)

/-- The batch of the C10 counterexample: per-atom confidence supplied but
`confidence_score` absent. -/
def c10MissingScore : Prediction :=
  { basePrediction with
      scalarFields := eightFieldsNoScore
    , pair_chains_iptm := some samplePci
    , plddt := some [[42]] }

/-- A batch with `plddt` present but the scalar key `ptm` missing. -/
def c10MissingPtm : Prediction :=
  { basePrediction with
      scalarFields := fieldsNoPtm
    , pair_chains_iptm := some samplePci
    , plddt := some [[42]] }

/-- A batch with `plddt` and all nine scalars present but no
`pair_chains_iptm`. -/
def c10MissingPci : Prediction :=
  { basePrediction with
      scalarFields := nineFields
    , plddt := some [[42]] }

/-- A batch carrying all nine scalar fields and the pairwise-chain tensor
but no per-atom confidence. -/
def c7NoPlddt : Prediction :=
  { basePrediction with
      scalarFields := nineFields
    , pair_chains_iptm := some samplePci }

/-- `c7NoPlddt` with per-atom confidence added. -/
def c7Full : Prediction := { c7NoPlddt with plddt := some [[42]] }

/-! ### Traversal and association-list lemmas -/

lemma exMapM_ok_length {f : α → Except Err β} :
    ∀ {l : List α} {out : List β}, exMapM f l = .ok out →
      out.length = l.length := by
  intro l
  induction l with
  | nil =>
    intro out h
    cases h
    rfl
  | cons a as ih =>
    intro out h
    unfold exMapM at h
    cases hf : f a with
    | error e => rw [hf] at h; cases h
    | ok b =>
      rw [hf] at h
      cases hm : exMapM f as with
      | error e => rw [hm] at h; cases h
      | ok bs =>
        rw [hm] at h
        cases h
        simp [ih hm]

lemma exMapM_ok_cons {f : α → Except Err β} {a : α} {as : List α}
    {out : List β} (h : exMapM f (a :: as) = .ok out) :
    ∃ b bs, f a = .ok b ∧ exMapM f as = .ok bs ∧ out = b :: bs := by
  unfold exMapM at h
  cases hf : f a with
  | error e => rw [hf] at h; cases h
  | ok b =>
    rw [hf] at h
    cases hm : exMapM f as with
    | error e => rw [hm] at h; cases h
    | ok bs =>
      rw [hm] at h
      cases h
      exact ⟨b, bs, rfl, rfl, rfl⟩

lemma exMapM_map_eq {f : α → Except Err β} (π : β → γ) (ρ : α → γ)
    (hf : ∀ a b, f a = .ok b → π b = ρ a) :
    ∀ {l : List α} {out : List β}, exMapM f l = .ok out →
      out.map π = l.map ρ := by
  intro l
  induction l with
  | nil => intro out h; cases h; rfl
  | cons a as ih =>
    intro out h
    rcases exMapM_ok_cons h with ⟨b, bs, hb, hbs, rfl⟩
    simp [hf a b hb, ih hbs]

lemma exMapM_mem {f : α → Except Err β} :
    ∀ {l : List α} {out : List β}, exMapM f l = .ok out →
      ∀ b ∈ out, ∃ a ∈ l, f a = .ok b := by
  intro l
  induction l with
  | nil => intro out h; cases h; intro b hb; cases hb
  | cons a as ih =>
    intro out h
    rcases exMapM_ok_cons h with ⟨b0, bs, hb0, hbs, rfl⟩
    intro b hb
    rcases List.mem_cons.mp hb with rfl | hb
    · exact ⟨a, List.mem_cons_self a as, hb0⟩
    · rcases ih hbs b hb with ⟨a', ha', hfa'⟩
      exact ⟨a', List.mem_cons_of_mem a ha', hfa'⟩

lemma alookupO_cons [BEq κ] (e : κ × β) (l : List (κ × β)) (k : κ) :
    alookupO (e :: l) k =
      if e.1 == k then some e.2 else alookupO l k := by
  unfold alookupO
  rw [List.find?_cons]
  cases hb : e.1 == k <;> simp [hb]

lemma lookupNat_ok {l : List (Nat × β)} {k : Nat} {v : β}
    (h : lookupNat l k = .ok v) : alookupO l k = some v := by
  unfold lookupNat at h
  cases ha : alookupO l k with
  | none => rw [ha] at h; cases h
  | some w => rw [ha] at h; cases h; rfl

lemma bindE_ok {γ β : Type} {m : Except Err γ} {k : γ → Except Err β}
    {b : β} (h : (m >>= k) = .ok b) : ∃ t, m = .ok t ∧ k t = .ok b := by
  cases m with
  | error e => cases h
  | ok t => exact ⟨t, rfl, h⟩

lemma getScalar_ok {fields : List (String × List Int)} {mi : Nat}
    {k : String} {b : String × Int} (h : getScalar fields mi k = .ok b) :
    b.1 = k ∧ ∃ t, lookupStr fields k = .ok t ∧ listGet t mi = .ok b.2 := by
  rcases bindE_ok h with ⟨t, h1, h2⟩
  rcases bindE_ok h2 with ⟨v, h3, h4⟩
  cases h4
  exact ⟨rfl, t, h1, h3⟩

lemma getDiag_ok {pci : List (Nat × List (Nat × List Int))} {mi : Nat}
    {e : Nat × List (Nat × List Int)} {c : Nat × Int}
    (h : getDiag pci mi e = .ok c) :
    c.1 = e.1 ∧ ∃ row t, lookupNat pci e.1 = .ok row ∧
      lookupNat row e.1 = .ok t ∧ listGet t mi = .ok c.2 := by
  rcases bindE_ok h with ⟨row, h1, h2⟩
  rcases bindE_ok h2 with ⟨t, h3, h4⟩
  rcases bindE_ok h4 with ⟨v, h5, h6⟩
  cases h6
  exact ⟨rfl, row, t, h1, h3, h5⟩

lemma getInnerEntry_ok {row : List (Nat × List Int)} {mi : Nat}
    {e2 : Nat × List Int} {b : Nat × Int}
    (h : getInnerEntry row mi e2 = .ok b) :
    b.1 = e2.1 ∧ ∃ t, lookupNat row e2.1 = .ok t ∧ listGet t mi = .ok b.2 := by
  rcases bindE_ok h with ⟨t, h1, h2⟩
  rcases bindE_ok h2 with ⟨v, h3, h4⟩
  cases h4
  exact ⟨rfl, t, h1, h3⟩

lemma getPairRow_ok {pci : List (Nat × List (Nat × List Int))} {mi : Nat}
    {e : Nat × List (Nat × List Int)} {pr : Nat × List (Nat × Int)}
    (h : getPairRow pci mi e = .ok pr) :
    pr.1 = e.1 ∧ ∃ row, lookupNat pci e.1 = .ok row ∧
      exMapM (getInnerEntry row mi) row = .ok pr.2 := by
  rcases bindE_ok h with ⟨row, h1, h2⟩
  rcases bindE_ok h2 with ⟨inner, h3, h4⟩
  cases h4
  exact ⟨rfl, row, h1, h3⟩

/-- Looking a key up in the output of the inner comprehension gives the
value computed from the *first* binding of that key in the batch's row:
exactly `d[idx1][j][mi]`, since dictionary subscripting also takes the
first binding. -/
lemma innerEntries_alookup {row : List (Nat × List Int)} {mi : Nat} :
    ∀ {l2 : List (Nat × List Int)} {inner : List (Nat × Int)},
      exMapM (getInnerEntry row mi) l2 = .ok inner →
      ∀ {j t v}, lookupNat row j = .ok t → listGet t mi = .ok v →
        (alookupO l2 j).isSome → alookupO inner j = some v := by
  intro l2
  induction l2 with
  | nil => intro inner h j t v _ _ hs; cases h; simp [alookupO] at hs
  | cons e2 rest2 ih =>
    intro inner h j t v ht hv hs
    rcases exMapM_ok_cons h with ⟨b, bs, hb, hbs, rfl⟩
    rcases getInnerEntry_ok hb with ⟨hb1, t2, ht2, hv2⟩
    rw [alookupO_cons]
    rw [alookupO_cons] at hs
    rw [hb1]
    cases hbeq : e2.1 == j with
    | false =>
      rw [hbeq] at hs
      simp only [Bool.false_eq_true, if_false] at hs ⊢
      exact ih hbs ht hv hs
    | true =>
      simp only [if_true]
      have hj : e2.1 = j := by simpa using hbeq
      rw [hj] at ht2
      rw [ht] at ht2
      cases ht2
      rw [hv] at hv2
      cases hv2
      rfl

/-- Each `chains_ptm` value is found again as the diagonal entry of the
corresponding `pair_chains_iptm` inner mapping: looking any chain index up
in the two output mappings goes through the same first-binding
dictionary subscripts of the batch tensor. -/
lemma diag_alookup {pci : List (Nat × List (Nat × List Int))} {mi : Nat} :
    ∀ {l : List (Nat × List (Nat × List Int))}
      {chains_ptm : List (Nat × Int)} {pairs : List (Nat × List (Nat × Int))},
      exMapM (getDiag pci mi) l = .ok chains_ptm →
      exMapM (getPairRow pci mi) l = .ok pairs →
      ∀ i, alookupO chains_ptm i =
        (alookupO pairs i).bind (fun inner => alookupO inner i) := by
  intro l
  induction l with
  | nil =>
    intro chains_ptm pairs hc hp i
    cases hc; cases hp; rfl
  | cons a rest ih =>
    intro chains_ptm pairs hc hp i
    rcases exMapM_ok_cons hc with ⟨c, cs, hcok, hcs, rfl⟩
    rcases exMapM_ok_cons hp with ⟨p, ps, hpok, hps, rfl⟩
    rcases getDiag_ok hcok with ⟨hc1, row, t, hrow, ht, hv⟩
    rcases getPairRow_ok hpok with ⟨hp1, row', hrow', hinner⟩
    rw [hrow] at hrow'
    cases hrow'
    rw [alookupO_cons, alookupO_cons, hc1, hp1]
    cases hbeq : a.1 == i with
    | false =>
      simp only [Bool.false_eq_true, if_false]
      exact ih hcs hps i
    | true =>
      simp only [if_true]
      have hieq : a.1 = i := by simpa using hbeq
      subst hieq
      have hsome : (alookupO row a.1).isSome := by
        rw [lookupNat_ok ht]; rfl
      have hd := innerEntries_alookup hinner ht hv hsome
      simp [hd]

lemma chainMapAux_shift (mask : List Bool) (i : Nat) :
    chainMapAux mask (i + 1) = (chainMapAux mask i).map (· + 1) := by
  induction mask generalizing i with
  | nil => rfl
  | cons b rest ih =>
    cases b <;> simp [chainMapAux, ih]

lemma chainMapAux_length (mask : List Bool) (i : Nat) :
    (chainMapAux mask i).length = mask.count true := by
  induction mask generalizing i with
  | nil => rfl
  | cons b rest ih =>
    cases b <;> simp [chainMapAux, ih, List.count_cons]

lemma chainMapAux_mem_lower (mask : List Bool) (i : Nat) :
    ∀ x ∈ chainMapAux mask i, i ≤ x := by
  induction mask generalizing i with
  | nil => intro x hx; cases hx
  | cons b rest ih =>
    intro x hx
    cases b with
    | false =>
      exact Nat.le_of_succ_le (ih (i + 1) x hx)
    | true =>
      have hx' : x = i ∨ x ∈ chainMapAux rest (i + 1) := by
        simpa [chainMapAux] using hx
      rcases hx' with rfl | hx'
      · exact Nat.le_refl _
      · exact Nat.le_of_succ_le (ih (i + 1) x hx')

lemma chainMapAux_mem_upper (mask : List Bool) (i : Nat) :
    ∀ x ∈ chainMapAux mask i, x < i + mask.length := by
  induction mask generalizing i with
  | nil => intro x hx; cases hx
  | cons b rest ih =>
    intro x hx
    cases b with
    | false =>
      have := ih (i + 1) x hx
      simp only [List.length_cons]
      omega
    | true =>
      have hx' : x = i ∨ x ∈ chainMapAux rest (i + 1) := by
        simpa [chainMapAux] using hx
      simp only [List.length_cons]
      rcases hx' with rfl | hx'
      · omega
      · have := ih (i + 1) x hx'
        omega

lemma chainMapAux_pairwise (mask : List Bool) (i : Nat) :
    List.Pairwise (· < ·) (chainMapAux mask i) := by
  induction mask generalizing i with
  | nil => exact List.Pairwise.nil
  | cons b rest ih =>
    cases b with
    | false => exact ih (i + 1)
    | true =>
      show List.Pairwise (· < ·) (i :: chainMapAux rest (i + 1))
      refine List.Pairwise.cons ?_ (ih (i + 1))
      intro x hx
      exact Nat.lt_of_succ_le (chainMapAux_mem_lower rest (i + 1) x hx)

lemma chainMap_get? (mask : List Bool) (j : Nat) :
    (chainMap mask).get? j = nthTruePos mask j := by
  induction mask generalizing j with
  | nil => cases j <;> rfl
  | cons b rest ih =>
    have hsh : chainMapAux rest 1 = (chainMap rest).map (· + 1) :=
      chainMapAux_shift rest 0
    cases b with
    | true =>
      cases j with
      | zero => rfl
      | succ n =>
        show (chainMapAux rest 1).get? n = (nthTruePos rest n).map (· + 1)
        rw [hsh, List.get?_map, ih]
    | false =>
      show (chainMapAux rest 1).get? j = (nthTruePos rest j).map (· + 1)
      rw [hsh, List.get?_map, ih]

/-! ### Claims -/

/-- C1: the Structure Assembler is claimed never to mutate the base
snapshot it is given.  The final-candidate assembler (lines 133-148) binds
the base's atom and residue tables without copying and assigns into them,
so after one call the base snapshot's coordinates and presence flags hold
the call's values, and after a second call with different coordinates the
base (and, through the shared table, the first call's result) holds the
second call's coordinates.  The claim is the stated contract (the
intermediate-path code at line 106 does copy); the final path contradicts
it. -/
theorem c1_final_assembler_mutates_base :
    assembleFinal sampleStructure [(1, 2, 3)] = .ok (c1Snap1, c1Snap1) ∧
    c1Snap1 ≠ sampleStructure ∧
    assembleFinal c1Snap1 [(4, 5, 6)] = .ok (c1Snap2, c1Snap2) ∧
    c1Snap2.atoms ≠ c1Snap1.atoms := by
  refine ⟨by decide, by decide, by decide, by decide⟩

/-- C2 (counterexample): with two records in the batch (parallel masks
supplied for both), only the first record's files are written and the call
returns without error — record `b` is silently ignored, because
`coords.unsqueeze(0)` gives the zipped coordinate sequence length one. -/
theorem c2_counterexample :
    (write_on_batch_end sampleWriterPdb sampleLoad
        { basePrediction with masks := [[true], [true]] }
        [recordA, recordB]).error = none ∧
    (write_on_batch_end sampleWriterPdb sampleLoad
        { basePrediction with masks := [[true], [true]] }
        [recordA, recordB]).files.map (fun f => f.path) =
      ["out/a/a_model_0.pdb"] ∧
    ¬ "out/b/b_model_0.pdb" ∈
      (write_on_batch_end sampleWriterPdb sampleLoad
        { basePrediction with masks := [[true], [true]] }
        [recordA, recordB]).files.map (fun f => f.path) := by
  refine ⟨by decide, by decide, by decide⟩

/-- C2 (amended): `write_on_batch_end` processes exactly the first record
of a non-empty batch: all records after the first are ignored, because the
unsqueezed coordinate tensor has a leading dimension of one and `zip`
truncates. -/
theorem c2_amended_first_record_only (w : Writer)
    (load : String → Except Err Structure) (p : Prediction) (r : Record)
    (rest : List Record) :
    write_on_batch_end w load p (r :: rest) =
      write_on_batch_end w load p [r] := by
  unfold write_on_batch_end
  cases hE : p.exception with
  | true => rfl
  | false =>
    simp only [Bool.false_eq_true, if_false]
    unfold processBatch liftW
    cases lookupStr p.scalarFields "confidence_score" with
    | error e => rfl
    | ok cs =>
      have hz : zip3 (r :: rest) [p.coords] p.masks =
          zip3 [r] [p.coords] p.masks := by
        cases p.masks with
        | nil => cases rest <;> rfl
        | cons m ms => cases rest <;> rfl
      simp only [hz]

/-- C3: the ranking is claimed deterministic with ties broken by
ascending candidate index via a stable sort, but the source calls
`torch.argsort(prediction["confidence_score"], descending=True)` without
`stable=True`, and the library's contract (a permutation along which the
scores are non-increasing) does not determine the order of equal scores:
on the tied input `[5, 5]` both index orders satisfy the contract.  (The
embedding's executable `argsortDescending` fixes the stable choice; this
theorem is about the contract the source actually requests.) -/
theorem c3_tie_order_unspecified :
    argsortDescSpec [5, 5] [0, 1] ∧ argsortDescSpec [5, 5] [1, 0] ∧
    ([0, 1] : List Nat) ≠ [1, 0] ∧
    argsortDescending [5, 5] = [0, 1] := by
  refine ⟨⟨?_, by decide⟩, ⟨?_, by decide⟩, by decide, by decide⟩
  · exact List.Perm.refl _
  · exact List.Perm.swap 0 1 []

/-- C4 (counterexample): a mask true-count of 1 against a two-row atom
table does not fail — numpy broadcasts the single coordinate row to every
atom row, silently padding the prediction to fit the table. -/
theorem c4_counterexample :
    assignCoords
      [{ coords := (0, 0, 0), is_present := false },
       { coords := (9, 9, 9), is_present := true }] [(1, 2, 3)] =
    .ok [{ coords := (1, 2, 3), is_present := false },
         { coords := (1, 2, 3), is_present := true }] := by decide

/-- C4 (amended): the unpadded-coordinate assignment fails with the
broadcast error exactly when the true-count differs from the atom-row
count *and* is not 1; a true-count of 1 is silently broadcast to every
row. -/
theorem c4_amended_broadcast_rule :
    (∀ (atoms : List AtomRow) (cs : List Coord),
      assignCoords atoms cs = .error .shapeMismatch ↔
        (cs.length ≠ atoms.length ∧ cs.length ≠ 1)) ∧
    (∀ (atoms : List AtomRow) (c : Coord),
      assignCoords atoms [c] =
        .ok (atoms.map (fun a => { a with coords := c }))) := by
  constructor
  · intro atoms cs
    unfold assignCoords
    split_ifs with h1 h2
    · simp [h1]
    · simp [h1, h2]
    · simp [h1, h2]
  · intro atoms c
    unfold assignCoords
    cases atoms with
    | nil => rfl
    | cons a as =>
      cases as with
      | nil => rfl
      | cons b bs =>
        rw [if_neg (by simp),
          dif_pos (show ([c] : List Coord).length = 1 from rfl)]
        rfl

/-- Witness for C4 (amended): the broadcast rule applied at concrete
inputs — an empty coordinate array against one atom row fails, and a
single row against two atom rows broadcasts. -/
theorem c4_amended_witness :
    assignCoords [{ coords := (0, 0, 0), is_present := false }] [] =
      .error .shapeMismatch ∧
    assignCoords
      [{ coords := (0, 0, 0), is_present := false },
       { coords := (0, 0, 0), is_present := true }] [(7, 8, 9)] =
    .ok [{ coords := (7, 8, 9), is_present := false },
         { coords := (7, 8, 9), is_present := true }] :=
  ⟨(c4_amended_broadcast_rule.1 _ []).mpr (by decide),
   c4_amended_broadcast_rule.2
     [{ coords := (0, 0, 0), is_present := false },
      { coords := (0, 0, 0), is_present := true }] (7, 8, 9)⟩

/-- C5: a set exception flag bumps the failure counter by exactly one,
raises nothing and writes nothing; a clear flag leaves the counter
untouched. -/
theorem c5_exception_flag (w : Writer) (load : String → Except Err Structure)
    (p : Prediction) (records : List Record) :
    write_on_batch_end w load { p with exception := true } records =
      { failed := w.failed + 1, files := [], error := none } ∧
    (write_on_batch_end w load { p with exception := false } records).failed
      = w.failed := by
  exact ⟨rfl, rfl⟩

/-- C6: the chain map is built from the validity mask before the invalid
chains are removed (in the embedding, `processRecord` applies `chainMap`
to the loaded snapshot's mask and only then filters, mirroring source
lines 84-90), and for every mask `v` it is a strictly increasing — hence
injective — map from `{0 .. count(v)-1}` into `{0 .. len(v)-1}` whose
`j`-th entry is the position of the `j`-th `true` of `v`. -/
theorem c6_chain_map_invariant (v : List Bool) :
    (chainMap v).length = v.count true ∧
    List.Pairwise (· < ·) (chainMap v) ∧
    ∀ j (h : j < (chainMap v).length),
      (chainMap v).get ⟨j, h⟩ < v.length ∧
      nthTruePos v j = some ((chainMap v).get ⟨j, h⟩) := by
  refine ⟨chainMapAux_length v 0, chainMapAux_pairwise v 0, ?_⟩
  intro j h
  constructor
  · have hm : (chainMap v).get ⟨j, h⟩ ∈ chainMapAux v 0 :=
      List.get_mem (chainMap v) j h
    simpa using chainMapAux_mem_upper v 0 _ hm
  · rw [← chainMap_get? v j, List.get?_eq_get h]

/-- Witness for C6: the invariant applied to the mask `[false, true]` —
the chain map has one entry and the 0th `true` sits at position 1. -/
theorem c6_witness :
    (chainMap [false, true]).length = 1 ∧
    nthTruePos [false, true] 0 = some 1 := by
  have h := c6_chain_map_invariant [false, true]
  exact ⟨h.1, (h.2.2 0 (by decide)).2⟩

/-- C7 (counterexample): a batch supplying all nine scalar confidence
fields (and the pairwise tensor) but no `plddt` gets no confidence
summary JSON — the code's gate is `"plddt" in prediction`, not the
presence of the scalar fields. -/
theorem c7_counterexample :
    (write_on_batch_end sampleWriterPdb sampleLoad c7NoPlddt
        [recordA]).files.map (fun f => f.path) = ["out/a/a_model_0.pdb"] ∧
    ¬ "out/a/confidence_a_model_0.json" ∈
      (write_on_batch_end sampleWriterPdb sampleLoad c7NoPlddt
        [recordA]).files.map (fun f => f.path) ∧
    (write_on_batch_end sampleWriterPdb sampleLoad c7NoPlddt
        [recordA]).error = none := by
  refine ⟨by decide, by decide, by decide⟩

/-- C7 (amended): whenever `plddt` is present (the code's actual gate)
and the summary succeeds, the emitted confidence summary contains the
nine scalar values under their keys in source order, a `chains_ptm`
whose keys are exactly the batch tensor's outer keys in supplied order
with `chains_ptm[i] = pair_chains_iptm[i][i]`, and a nested
`pair_chains_iptm` covering exactly the batch's chain pairs in supplied
order; and on a concrete run with `plddt` present the summary JSON and
per-atom side-channel are emitted with exactly that content. -/
theorem c7_amended_confidence_content :
    (∀ (fields : List (String × List Int))
       (pci : List (Nat × List (Nat × List Int))) (mi : Nat)
       (scalars : List (String × Int)) (chains_ptm : List (Nat × Int))
       (pairs : List (Nat × List (Nat × Int))),
      buildConfidenceSummary fields (some pci) mi =
        .ok (scalars, chains_ptm, pairs) →
      scalars.map Prod.fst = nineConfidenceKeys ∧
      (∀ kv ∈ scalars, ∃ t, lookupStr fields kv.1 = .ok t ∧
        listGet t mi = .ok kv.2) ∧
      chains_ptm.map Prod.fst = pci.map Prod.fst ∧
      pairs.map Prod.fst = pci.map Prod.fst ∧
      (∀ pr ∈ pairs, ∃ row, lookupNat pci pr.1 = .ok row ∧
        pr.2.map Prod.fst = row.map Prod.fst) ∧
      (∀ i, alookupO chains_ptm i =
        (alookupO pairs i).bind (fun inner => alookupO inner i))) ∧
    (write_on_batch_end sampleWriterPdb sampleLoad c7Full [recordA]).files =
      [⟨"out/a/a_model_0.pdb", .pdbText c1Snap1⟩,
       ⟨"out/a/confidence_a_model_0.json",
        .confidenceJson
          [("confidence_score", 7), ("ptm", 1), ("iptm", 2),
           ("ligand_iptm", 3), ("protein_iptm", 4), ("complex_plddt", 5),
           ("complex_iplddt", 6), ("complex_pde", 8), ("complex_ipde", 9)]
          [(0, 10), (1, 13)]
          [(0, [(0, 10), (1, 11)]), (1, [(0, 12), (1, 13)])]⟩,
       ⟨"out/a/plddt_a_model_0.npz", .npzPlddt [42]⟩] ∧
    (write_on_batch_end sampleWriterPdb sampleLoad c7Full [recordA]).error
      = none := by
  refine ⟨?_, by decide, by decide⟩
  intro fields pci mi scalars chains_ptm pairs h
  rcases bindE_ok h with ⟨scalars', h1, h2⟩
  rcases bindE_ok h2 with ⟨chains', h3, h4⟩
  rcases bindE_ok h4 with ⟨pairs', h5, h6⟩
  cases h6
  refine ⟨?_, ?_, ?_, ?_, ?_, ?_⟩
  · have := exMapM_map_eq Prod.fst id
      (fun a b hb => (getScalar_ok hb).1) h1
    simpa using this
  · intro kv hkv
    rcases exMapM_mem h1 kv hkv with ⟨k, _, hfk⟩
    rcases getScalar_ok hfk with ⟨hb1, t, ht, hv⟩
    rw [hb1]
    exact ⟨t, ht, hv⟩
  · exact exMapM_map_eq Prod.fst Prod.fst
      (fun a b hb => (getDiag_ok hb).1) h3
  · exact exMapM_map_eq Prod.fst Prod.fst
      (fun a b hb => (getPairRow_ok hb).1) h5
  · intro pr hpr
    rcases exMapM_mem h5 pr hpr with ⟨a, _, hfa⟩
    rcases getPairRow_ok hfa with ⟨hp1, row, hrow, hinner⟩
    rw [hp1]
    exact ⟨row, hrow,
      exMapM_map_eq Prod.fst Prod.fst
        (fun e2 b hb => (getInnerEntry_ok hb).1) hinner⟩
  · exact diag_alookup h3 h5

/-- Witness for C7 (amended): the content properties applied to the
concrete two-chain batch tensor — the summary evaluates, and its
`chains_ptm` keys are exactly the tensor's outer keys. -/
theorem c7_witness :
    buildConfidenceSummary nineFields (some samplePci) 0 =
      .ok ([("confidence_score", 7), ("ptm", 1), ("iptm", 2),
            ("ligand_iptm", 3), ("protein_iptm", 4), ("complex_plddt", 5),
            ("complex_iplddt", 6), ("complex_pde", 8), ("complex_ipde", 9)],
           [(0, 10), (1, 13)],
           [(0, [(0, 10), (1, 11)]), (1, [(0, 12), (1, 13)])]) ∧
    ([((0 : Nat), (10 : Int)), (1, 13)]).map Prod.fst =
      samplePci.map Prod.fst := by
  have hb : buildConfidenceSummary nineFields (some samplePci) 0 =
      .ok ([("confidence_score", 7), ("ptm", 1), ("iptm", 2),
            ("ligand_iptm", 3), ("protein_iptm", 4), ("complex_plddt", 5),
            ("complex_iplddt", 6), ("complex_pde", 8), ("complex_ipde", 9)],
           [(0, 10), (1, 13)],
           [(0, [(0, 10), (1, 11)]), (1, [(0, 12), (1, 13)])]) := rfl
  exact ⟨hb, (c7_amended_confidence_content.1 nineFields samplePci 0
    _ _ _ hb).2.2.1⟩

/-- C8 (counterexample): with the `mmcif` format and intermediate
coordinates present, the intermediate files are written with suffix
`.mmcif` — the raw format string — not the `.cif` suffix the final files
get. -/
theorem c8_counterexample :
    (write_on_batch_end sampleWriterMmcif sampleLoad c8Prediction
        [recordA]).files.map (fun f => f.path) =
      ["out/a/intermediate/a_model_1_step_0.mmcif", "out/a/a_model_1.cif",
       "out/a/intermediate/a_model_0_step_0.mmcif", "out/a/a_model_0.cif"] ∧
    ¬ "out/a/intermediate/a_model_0_step_0.cif" ∈
      (write_on_batch_end sampleWriterMmcif sampleLoad c8Prediction
        [recordA]).files.map (fun f => f.path) ∧
    (write_on_batch_end sampleWriterMmcif sampleLoad c8Prediction
        [recordA]).error = none := by
  refine ⟨by decide, by decide, by decide⟩

/-- C8 (amended): final structure paths are derived from the record id
and the rank with suffix `pdb`/`cif`/`npz` by format, while intermediate
paths use the raw format string as suffix (`mmcif` gives `.mmcif`); in a
two-candidate `pdb` run the lower-scored candidate 0 is written under
rank 1 and candidate 1 under rank 0, for both final and intermediate
files. -/
theorem c8_amended_paths :
    intermediatePath "out" "a" 0 0 "mmcif" =
      "out/a/intermediate/a_model_0_step_0.mmcif" ∧
    intermediatePath "out" "a" 0 0 "pdb" =
      "out/a/intermediate/a_model_0_step_0.pdb" ∧
    finalStructPath "out" "a" 0 "mmcif" = "out/a/a_model_0.cif" ∧
    finalStructPath "out" "a" 0 "pdb" = "out/a/a_model_0.pdb" ∧
    finalStructPath "out" "a" 0 "other" = "out/a/a_model_0.npz" ∧
    (write_on_batch_end sampleWriterPdb sampleLoad c8Prediction
        [recordA]).files.map (fun f => f.path) =
      ["out/a/intermediate/a_model_1_step_0.pdb", "out/a/a_model_1.pdb",
       "out/a/intermediate/a_model_0_step_0.pdb", "out/a/a_model_0.pdb"] := by
  refine ⟨by decide, by decide, by decide, by decide, by decide, by decide⟩

/-- C9 (counterexample): no `output_format` outside `pdb`/`mmcif` lets
construction succeed — the constructor validates and raises, so the
raw-array fallback is not selectable. -/
theorem c9_counterexample :
    ¬ ∃ fmt : String, fmt ≠ "pdb" ∧ fmt ≠ "mmcif" ∧
      ∃ w, boltzWriterInit "data" "out" fmt = .ok w := by
  rintro ⟨fmt, h1, h2, w, h3⟩
  unfold boltzWriterInit at h3
  rw [if_neg (by tauto)] at h3
  cases h3

/-- C9 (amended): any format other than the two named ones fails at
initialization with the `ValueError`; the emitter's npz `else` branch is
unreachable through a successfully constructed writer. -/
theorem c9_amended_invalid_format (d o fmt : String) (h1 : fmt ≠ "pdb")
    (h2 : fmt ≠ "mmcif") :
    boltzWriterInit d o fmt =
      .error (.valueError ("Invalid output format: " ++ fmt)) := by
  unfold boltzWriterInit
  rw [if_neg (by tauto)]

/-- Witness for C9 (amended): constructing with `npz` fails. -/
theorem c9_amended_witness :
    boltzWriterInit "data" "out" "npz" =
      .error (.valueError "Invalid output format: npz") :=
  c9_amended_invalid_format "data" "out" "npz" (by decide) (by decide)

/-- C10 (counterexample): with `plddt` present but `confidence_score`
absent, the lookup error is raised at the batch-level ranking step, before
any structure file is written — not after, as the claim states. -/
theorem c10_counterexample :
    write_on_batch_end sampleWriterPdb sampleLoad c10MissingScore [recordA] =
      { failed := 0, files := [],
        error := some (.keyError "confidence_score") } := by
  decide

/-- C10 (amended): when `plddt` is present, a missing scalar key other
than `confidence_score` (here `ptm`), or a missing `pair_chains_iptm`,
raises the lookup error after the candidate's structure file has been
written; a missing `confidence_score` aborts before any file. -/
theorem c10_amended_lookup_abort :
    ((write_on_batch_end sampleWriterPdb sampleLoad c10MissingPtm
        [recordA]).files.map (fun f => f.path) = ["out/a/a_model_0.pdb"] ∧
     (write_on_batch_end sampleWriterPdb sampleLoad c10MissingPtm
        [recordA]).error = some (.keyError "ptm")) ∧
    ((write_on_batch_end sampleWriterPdb sampleLoad c10MissingPci
        [recordA]).files.map (fun f => f.path) = ["out/a/a_model_0.pdb"] ∧
     (write_on_batch_end sampleWriterPdb sampleLoad c10MissingPci
        [recordA]).error = some (.keyError "pair_chains_iptm")) := by
  refine ⟨⟨by decide, by decide⟩, ⟨by decide, by decide⟩⟩

end Boltz



